import Mathlib

/-!
Verification of the XSBE schema-by-example XML transformer library.

This file shallowly embeds the Python code of `src/source/xsbe/transform.py`
(the current, ElementTree-based implementation of the library; the older
variant `src/xsbe/transform.py` agrees with it on everything proved here
except where a theorem's comment notes a difference).  XML elements follow
the ElementTree shape used by that file: a tag string in `\x7bnamespace\x7dlocal`
form, an attribute dict, optional body text, and a list of child elements.

Python-level conventions of the embedding:
 * machine integers are `Int` (Python ints are unbounded, so no wrap-around);
 * fallible code returns `Except PyError`, where `PyError` has one
   constructor per exception class that the library can raise, including
   the builtin `ValueError` / `KeyError` / `TypeError` / `AttributeError`
   that escape from scalar coders (the library defines no wrapper for
   those);
 * Python `dict`s are insertion-ordered association lists: assigning to an
   existing key overwrites in place, a new key is appended;
 * Python `None` is the value `Value.vnone`;
 * `float` *values* are carried opaquely as their literal text, because no
   claim in scope depends on float arithmetic or float printing; the float
   *grammar* (what `float(text)` accepts), which type inference does depend
   on, is modelled exactly.
-/

/-! ## Models of Python primitives -/

/-- Model of Python `str.strip()` with no argument: remove leading and
trailing whitespace (ASCII whitespace; the library never feeds non-ASCII
whitespace). -/
def pyStrip (s : String) : String :=
  String.mk (((s.toList.dropWhile Char.isWhitespace).reverse.dropWhile
    Char.isWhitespace).reverse)

/-- Lowercase a string character-wise (Python `str.lower` for the ASCII
text the library handles). -/
def strLower (s : String) : String := String.mk (s.toList.map Char.toLower)

/-- Uppercase a string character-wise (Python `str.upper`). -/
def strUpper (s : String) : String := String.mk (s.toList.map Char.toUpper)

/-- Python `needle in hay` on strings (substring membership; the empty
needle is a member of everything). -/
def strContainsSub (hay needle : String) : Bool :=
  strContainsSubGo needle.toList hay.toList
where
  strContainsSubGo (needle : List Char) : List Char → Bool
    | [] => needle.isEmpty
    | c :: rest => List.isPrefixOf needle (c :: rest) || strContainsSubGo needle rest

/-- Python `s.startswith(p)`. -/
def strStarts (s p : String) : Bool := List.isPrefixOf p.toList s.toList

/-- Split a string on every occurrence of one character (Python
`s.split(c)` for a one-character separator: empty pieces kept). -/
def charSplit (c : Char) (s : String) : List String :=
  (s.toList.splitOn c).map String.mk

/-- Digit sequence with optional single underscores between digits, the
`digitpart` of Python's numeric literal grammar: `digit (["_"] digit)*`. -/
def digitPartTail : List Char → Bool
  | [] => true
  | '_' :: c :: rest => c.isDigit && digitPartTail rest
  | '_' :: [] => false
  | c :: rest => c.isDigit && digitPartTail rest

/-- Nonempty `digitpart`: `digit (["_"] digit)*`. -/
def digitPart : List Char → Bool
  | [] => false
  | c :: rest => c.isDigit && digitPartTail rest

/-- Numeric value of a digit sequence, skipping underscores. -/
def digitsValue (cs : List Char) : Nat :=
  cs.foldl (fun acc c => if c = '_' then acc else acc * 10 + (c.toNat - '0'.toNat)) 0

/-- Strip one optional leading `+`/`-` sign; return (negative?, rest). -/
def dropSign : List Char → Bool × List Char
  | '+' :: rest => (false, rest)
  | '-' :: rest => (true, rest)
  | rest => (false, rest)

/-- Model of Python `int(text)` for base 10: strip whitespace, optional
sign, then a nonempty digit sequence (underscores allowed between
digits).  Returns `none` exactly when CPython raises `ValueError`. -/
def pyIntOfString (s : String) : Option Int :=
  let (neg, cs) := dropSign (pyStrip s).toList
  if digitPart cs then
    let n : Int := Int.ofNat (digitsValue cs)
    some (if neg then -n else n)
  else
    none

/-- Split a character list at the first `e`/`E`, for the exponent part of
a float literal.  Returns the mantissa and, when an `e` is present, the
characters after it. -/
def splitAtExp : List Char → List Char × Option (List Char)
  | [] => ([], none)
  | c :: rest =>
    if c = 'e' || c = 'E' then ([], some rest)
    else
      let (m, e) := splitAtExp rest
      (c :: m, e)

/-- The `pointfloat | digitpart` mantissa forms of Python's float grammar:
`digitpart`, `digitpart "."`, `digitpart "." digitpart`, `"." digitpart`. -/
def floatMantissa (cs : List Char) : Bool :=
  match cs.splitOn '.' with
  | [whole] => digitPart whole
  | [whole, frac] =>
    (digitPart whole && (frac.isEmpty || digitPart frac)) ||
    (whole.isEmpty && digitPart frac)
  | _ => false

/-- Model of the acceptance of Python `float(text)`: strip whitespace,
optional sign, then `inf`/`infinity`/`nan` (case-insensitive) or a
decimal mantissa with an optional exponent. `true` exactly when CPython's
`float()` does not raise `ValueError`. -/
def pyFloatAccepts (s : String) : Bool :=
  let (_, cs) := dropSign (pyStrip s).toList
  let lower := String.mk (cs.map Char.toLower)
  if lower = "inf" || lower = "infinity" || lower = "nan" then true
  else
    match splitAtExp cs with
    | (mantissa, none) => floatMantissa mantissa
    | (mantissa, some expPart) =>
      floatMantissa mantissa && digitPart (dropSign expPart).2

/-- Python `"." in text` (substring membership of a single character). -/
def containsDot (s : String) : Bool := s.toList.contains '.'

/-! ## Exceptions

One constructor per exception class raised by `transform.py`.  The first
group are the library's own `ParseFailure` hierarchy; the second group are
Python builtins, which the library does not wrap. -/

/-- Exceptions observable from the library.  `parseFailure` covers the
bare `ParseFailure(msg)` raises; the named constructors cover its
subclasses, carrying the same payloads as the Python constructors. -/
inductive PyError where
  | parseFailure (msg : String)
  | unexpectedAttribute (attribute_name : String)
  | missingAttribute (element_name : String)
  | unexpectedElement (element_name : String)
  | duplicateElement (element_name : String) (result_name : Option String)
  | missingElement (element_name : String)
  | incorrectRoot (expected found : String)
  | valueError (msg : String)
  | keyError (key : String)
  | typeError (msg : String)
  | attributeError (msg : String)
  | indexError (msg : String)
  deriving Repr, DecidableEq

/-- Python `isinstance(e, ParseFailure)`: true for the library's own
structured error taxonomy, false for the builtin unclassified exceptions
(`ValueError`, `KeyError`, `TypeError`, `AttributeError`). -/
def PyError.isParseFailure : PyError → Bool
  | .parseFailure _ => true
  | .unexpectedAttribute _ => true
  | .missingAttribute _ => true
  | .unexpectedElement _ => true
  | .duplicateElement _ _ => true
  | .missingElement _ => true
  | .incorrectRoot _ _ => true
  | .valueError _ => false
  | .keyError _ => false
  | .typeError _ => false
  | .attributeError _ => false
  | .indexError _ => false

/-- A computation failed, and the error it failed with is one of the
library's structured `ParseFailure` kinds. -/
def failsStructured {α : Type} : Except PyError α → Bool
  | .error e => e.isParseFailure
  | .ok _ => false

/-- A computation failed (with any exception at all). -/
def failsAtAll {α : Type} : Except PyError α → Bool
  | .error _ => true
  | .ok _ => false

/-! ## Model of Python datetimes

Only construction and acceptance/rejection of the three date text formats
matter to the claims in scope; no claim depends on date arithmetic. -/

/-- A Python `datetime.datetime` value.  `tzSeconds` is the UTC offset of
the attached `tzinfo` in seconds, or `none` for a naive datetime. -/
structure PyDateTime where
  year : Nat
  month : Nat
  day : Nat
  hour : Nat
  minute : Nat
  second : Nat
  microsecond : Nat
  tzSeconds : Option Int
  deriving Repr, DecidableEq

/-- Gregorian leap-year rule, as used by `datetime`. -/
def isLeapYear (y : Nat) : Bool := y % 4 = 0 && (y % 100 ≠ 0 || y % 400 = 0)

/-- Days in a month, as validated by the `datetime` constructor. -/
def daysInMonth (y m : Nat) : Nat :=
  if m = 2 then (if isLeapYear y then 29 else 28)
  else if m = 4 || m = 6 || m = 9 || m = 11 then 30
  else 31

/-- Range validation performed by the `datetime.datetime` constructor. -/
def validDateTime (d : PyDateTime) : Bool :=
  1 ≤ d.year && d.year ≤ 9999 &&
  1 ≤ d.month && d.month ≤ 12 &&
  1 ≤ d.day && d.day ≤ daysInMonth d.year d.month &&
  d.hour ≤ 23 && d.minute ≤ 59 && d.second ≤ 59 && d.microsecond ≤ 999999 &&
  (match d.tzSeconds with
   | none => true
   | some off => -86400 < off && off < 86400)

/-- Read two ASCII digits, returning their value and the rest. -/
def digits2? : List Char → Option (Nat × List Char)
  | a :: b :: rest =>
    if a.isDigit && b.isDigit then some (digitsValue [a, b], rest) else none
  | _ => none

/-- The positional `HH[:MM[:SS[.fff[fff]]]]` time parser used by
`datetime.fromisoformat` in Python 3.10 (fraction must be exactly 3 or
6 digits). Returns (hour, minute, second, microsecond). -/
def parseHHMMSSFF (cs : List Char) : Option (Nat × Nat × Nat × Nat) :=
  match digits2? cs with
  | none => none
  | some (h, rest) =>
    match rest with
    | [] => some (h, 0, 0, 0)
    | ':' :: rest1 =>
      match digits2? rest1 with
      | none => none
      | some (m, rest2) =>
        match rest2 with
        | [] => some (h, m, 0, 0)
        | ':' :: rest3 =>
          match digits2? rest3 with
          | none => none
          | some (sec, rest4) =>
            match rest4 with
            | [] => some (h, m, sec, 0)
            | '.' :: fracs =>
              if fracs.length = 3 && fracs.all Char.isDigit then
                some (h, m, sec, digitsValue fracs * 1000)
              else if fracs.length = 6 && fracs.all Char.isDigit then
                some (h, m, sec, digitsValue fracs)
              else none
            | _ => none
        | _ => none
    | _ => none

/-- Split a character list at its first occurrence of `c` (the character
itself is dropped); `none` when `c` does not occur. -/
def splitAtFirst (c : Char) : List Char → Option (List Char × List Char)
  | [] => none
  | x :: rest =>
    if x = c then some ([], rest)
    else (splitAtFirst c rest).map (fun p => (x :: p.1, p.2))

/-- The timezone-sign search of `fromisoformat`: the first `-` wins, else
the first `+` (mirrors `tstr.find('-') + 1 or tstr.find('+') + 1`).
Returns (time characters, negative sign?, timezone characters). -/
def findTzSign (cs : List Char) : Option (List Char × Bool × List Char) :=
  match splitAtFirst '-' cs with
  | some (timecs, tzcs) => some (timecs, true, tzcs)
  | none =>
    match splitAtFirst '+' cs with
    | some (timecs, tzcs) => some (timecs, false, tzcs)
    | none => none

/-- Model of Python 3.10 `datetime.fromisoformat`: a strict
`YYYY-MM-DD[<sep>HH[:MM[:SS[.fff[fff]]]][±HH:MM[:SS[.ffffff]]]]` parser
(any single separator character is accepted between date and time), with
the range validation the `datetime` constructor performs.  Raises
`ValueError` on any other shape, like CPython. -/
def fromisoformat (s : String) : Except PyError PyDateTime :=
  let bad : Except PyError PyDateTime :=
    .error (.valueError ("Invalid isoformat string: " ++ s))
  match s.toList with
  | y1 :: y2 :: y3 :: y4 :: '-' :: m1 :: m2 :: '-' :: d1 :: d2 :: rest =>
    if ([y1, y2, y3, y4, m1, m2, d1, d2].all Char.isDigit) then
      let year := digitsValue [y1, y2, y3, y4]
      let month := digitsValue [m1, m2]
      let day := digitsValue [d1, d2]
      let timepart : Option (Nat × Nat × Nat × Nat × Option Int) :=
        match rest with
        | [] => some (0, 0, 0, 0, none)
        | _sep :: tcs =>
          if tcs.isEmpty then none
          else
            match findTzSign tcs with
            | none =>
              (parseHHMMSSFF tcs).map (fun (h, m, sec, us) => (h, m, sec, us, none))
            | some (timecs, negtz, tzcs) =>
              match parseHHMMSSFF timecs with
              | none => none
              | some (h, m, sec, us) =>
                if tzcs.length = 5 || tzcs.length = 8 || tzcs.length = 15 then
                  match parseHHMMSSFF tzcs with
                  | none => none
                  | some (th, tm, ts, _tus) =>
                    let off : Int := Int.ofNat (th * 3600 + tm * 60 + ts)
                    some (h, m, sec, us, some (if negtz then -off else off))
                else none
      match timepart with
      | none => bad
      | some (h, m, sec, us, tz) =>
        let d : PyDateTime :=
          { year := year, month := month, day := day, hour := h, minute := m,
            second := sec, microsecond := us, tzSeconds := tz }
        if validDateTime d then .ok d else bad
    else bad
  | _ => bad

/-- `ISODateTransformer.transform_from_xml`: decode through
`datetime.fromisoformat`. -/
def isoDateFromXml (s : String) : Except PyError PyDateTime := fromisoformat s

/-- `ISOZuluDateTransformer.transform_from_xml`: require a trailing `Z`
(`value[-1]` on an empty string raises `IndexError`), parse the rest with
`fromisoformat`, reject an embedded timezone, and attach UTC. -/
def isoZuluDateFromXml (s : String) : Except PyError PyDateTime :=
  match s.toList.getLast? with
  | none => .error (.indexError "string index out of range")
  | some c =>
    if c ≠ 'Z' then .error (.valueError "Expected Z timezone")
    else
      match fromisoformat (String.mk s.toList.dropLast) with
      | .error e => .error e
      | .ok d =>
        if d.tzSeconds ≠ none then
          .error (.valueError ("Invalid date format " ++ s))
        else .ok { d with tzSeconds := some 0 }

/-! ## Model of `email.utils.parsedate_tz` / `parsedate_to_datetime`

Follows CPython's `email._parseaddr._parsedate_tz` step by step. -/

/-- Split a character list at each whitespace character (helper of
`pySplitWs`); `cur` is the piece accumulated so far, in reverse. -/
def splitWsGo (cur : List Char) : List Char → List String
  | [] => [String.mk cur.reverse]
  | c :: rest =>
    if c.isWhitespace then String.mk cur.reverse :: splitWsGo [] rest
    else splitWsGo (c :: cur) rest

/-- Python `str.split()` with no argument: split on whitespace runs,
dropping empty pieces. -/
def pySplitWs (s : String) : List String :=
  (splitWsGo [] s.toList).filter (fun p => p ≠ "")

/-- Last character of a string, if any. -/
def strLast? (s : String) : Option Char := s.toList.getLast?

/-- Drop the final character of a string (Python `s[:-1]`). -/
def dropLastStr (s : String) : String := String.mk s.toList.dropLast

/-- Index of the first occurrence of a character (Python `str.find`,
returning `none` instead of `-1`). -/
def firstIdxOfChar (c : Char) (s : String) : Option Nat :=
  let rec go : List Char → Option Nat
    | [] => none
    | x :: rest => if x = c then some 0 else (go rest).map (· + 1)
  go s.toList

/-- Python `s[:i]` for a character index. -/
def takeStr (i : Nat) (s : String) : String := String.mk (s.toList.take i)

/-- Python `s[i:]` for a character index. -/
def dropStr (i : Nat) (s : String) : String := String.mk (s.toList.drop i)

/-- First position of a string in a list (Python `list.index`, as used on
`_monthnames`). -/
def listIndex? (x : String) : List String → Option Nat
  | [] => none
  | y :: rest => if y = x then some 0 else (listIndex? x rest).map (· + 1)

/-- Association lookup (used for the `_timezones` table). -/
def alookup {α : Type} (k : String) : List (String × α) → Option α
  | [] => none
  | (k', v) :: rest => if k' = k then some v else alookup k rest

/-- CPython `email._parseaddr._daynames`. -/
def pyDaynames : List String := ["mon", "tue", "wed", "thu", "fri", "sat", "sun"]

/-- CPython `email._parseaddr._monthnames` (index + 1 gives the month;
indices over 11 wrap by subtracting 12). -/
def pyMonthnames : List String :=
  ["jan", "feb", "mar", "apr", "may", "jun",
   "jul", "aug", "sep", "oct", "nov", "dec",
   "january", "february", "march", "april", "may", "june",
   "july", "august", "september", "october", "november", "december"]

/-- CPython `email._parseaddr._timezones` (composite hour-minute codes,
e.g. `-400` means `-04:00`). -/
def pyTimezones : List (String × Int) :=
  [("UT", 0), ("UTC", 0), ("GMT", 0), ("Z", 0),
   ("AST", -400), ("ADT", -300), ("EST", -500), ("EDT", -400),
   ("CST", -600), ("CDT", -500), ("MST", -700), ("MDT", -600),
   ("PST", -800), ("PDT", -700)]

/-- Model of CPython `email.utils.parsedate_tz`, reduced to the fields the
library uses: `(year, month, day, hour, minute, second, utc-offset-seconds)`,
or `none` where CPython returns `None` (or dies on a malformed inner
index, which the library would surface the same way: as a decode
failure). -/
def parsedateTz (s : String) : Option (Int × Nat × Int × Int × Int × Int × Option Int) :=
  match pySplitWs s with
  | [] => none
  | d0 :: rest =>
    let data1 : List String :=
      if strLast? d0 = some ',' || pyDaynames.contains (strLower d0) then rest
      else
        match charSplit ',' d0 with
        | [] => d0 :: rest
        | [_] => d0 :: rest
        | parts => parts.getLastD d0 :: rest
    let data2 : List String :=
      match data1 with
      | [a, b, c] =>
        match charSplit '-' a with
        | [x, y, z] => [x, y, z, b, c]
        | _ => data1
      | _ => data1
    let data3 : List String :=
      match data2 with
      | [a, b, c, s3] =>
        let i? := match firstIdxOfChar '+' s3 with
                  | some i => some i
                  | none => firstIdxOfChar '-' s3
        match i? with
        | some i => if i > 0 then [a, b, c, takeStr i s3, dropStr i s3]
                    else [a, b, c, s3, ""]
        | none => [a, b, c, s3, ""]
      | _ => data2
    match data3.take 5 with
    | [dd0, mm0, yy0, tm0, tz0] =>
      if dd0 = "" || mm0 = "" || yy0 = "" then none
      else
        let swapped : String × Option Nat :=
          match listIndex? (strLower mm0) pyMonthnames with
          | some i => (dd0, some i)
          | none =>
            match listIndex? (strLower dd0) pyMonthnames with
            | some i => (mm0, some i)
            | none => (mm0, none)
        match swapped with
        | (_, none) => none
        | (dd1, some idx) =>
          let month := (idx % 12) + 1
          let dd2 := if strLast? dd1 = some ',' then dropLastStr dd1 else dd1
          let yyTm : String × String :=
            match firstIdxOfChar ':' yy0 with
            | some i => if i > 0 then (tm0, yy0) else (yy0, tm0)
            | none => (yy0, tm0)
          let yy1 := yyTm.1
          let tm1 := yyTm.2
          let yy2 := if strLast? yy1 = some ',' then dropLastStr yy1 else yy1
          if yy2 = "" then none
          else
            let yyTz : String × String :=
              if (yy2.toList.headD ' ').isDigit then (yy2, tz0) else (tz0, yy2)
            let yy3 := yyTz.1
            let tz1 := yyTz.2
            let tm2 := if strLast? tm1 = some ',' then dropLastStr tm1 else tm1
            let hms? : Option (String × String × String) :=
              match charSplit ':' tm2 with
              | [a, b] => some (a, b, "0")
              | [a, b, c] => some (a, b, c)
              | [a] =>
                if containsDot a then
                  match charSplit '.' a with
                  | [x, y] => some (x, y, "0")
                  | [x, y, z] => some (x, y, z)
                  | _ => none
                else none
              | _ => none
            match hms? with
            | none => none
            | some (hs, ms, ss) =>
              match pyIntOfString yy3, pyIntOfString dd2, pyIntOfString hs,
                    pyIntOfString ms, pyIntOfString ss with
              | some yyI, some ddI, some thh, some tmm, some tss =>
                let yyFixed := if yyI < 100 then
                                 (if yyI > 68 then yyI + 1900 else yyI + 2000)
                               else yyI
                let tzComposite : Option Int :=
                  match alookup (strUpper tz1) pyTimezones with
                  | some v => some v
                  | none =>
                    match pyIntOfString tz1 with
                    | some v => if v = 0 && strStarts tz1 "-" then none else some v
                    | none => none
                let tzSec : Option Int :=
                  match tzComposite with
                  | none => none
                  | some v =>
                    if v = 0 then some 0
                    else
                      let sign : Int := if v < 0 then -1 else 1
                      let a := if v < 0 then -v else v
                      some (sign * ((a / 100) * 3600 + (a % 100) * 60))
                some (yyFixed, month, ddI, thh, tmm, tss, tzSec)
              | _, _, _, _, _ => none
    | _ => none

/-- `EmailDateTransformer.transform_from_xml`: decode through
`email.utils.parsedate_to_datetime`, which raises `ValueError` when
`parsedate_tz` fails; the `datetime` constructor validates ranges. -/
def emailDateFromXml (s : String) : Except PyError PyDateTime :=
  match parsedateTz s with
  | none => .error (.valueError ("Invalid date value or format " ++ s))
  | some (yy, month, dd, thh, tmm, tss, tz) =>
    if yy < 1 || dd < 1 || thh < 0 || tmm < 0 || tss < 0 then
      .error (.valueError ("Invalid date value or format " ++ s))
    else
      let d : PyDateTime :=
        { year := yy.toNat, month := month, day := dd.toNat, hour := thh.toNat,
          minute := tmm.toNat, second := tss.toNat, microsecond := 0,
          tzSeconds := tz }
      if validDateTime d then .ok d
      else .error (.valueError ("Invalid date value or format " ++ s))

/-! ## The dynamic value domain

Decoded data is Python data: `None`, bools, ints, floats, strings,
datetimes, lists, and insertion-ordered string-keyed dicts (modelled as
association lists; assignment to an existing key overwrites in place,
assignment to a new key appends, exactly like a Python `dict`). -/

/-- A Python value as produced/consumed by the transformers.  Floats are
carried as their literal text (see the file comment). -/
inductive Value where
  | vnone
  | vbool (b : Bool)
  | vint (n : Int)
  | vfloat (lit : String)
  | vstr (s : String)
  | vdatetime (d : PyDateTime)
  | vlist (xs : List Value)
  | vdict (entries : List (String × Value))

/-- Python `d[k] = v` on a dict: overwrite in place or append. -/
def dictSet (d : List (String × Value)) (k : String) (v : Value) :
    List (String × Value) :=
  match d with
  | [] => [(k, v)]
  | (k', v') :: rest =>
    if k' = k then (k, v) :: rest else (k', v') :: dictSet rest k v

/-- Python `d.get(k)` on a dict. -/
def dictGet? (d : List (String × Value)) (k : String) : Option Value :=
  alookup k d

/-- Python `k in d` on a dict. -/
def dictContains (d : List (String × Value)) (k : String) : Bool :=
  (alookup k d).isSome

/-- Python `d.update(src)` where `src` is itself a dict. -/
def dictUpdate (d src : List (String × Value)) : List (String × Value) :=
  src.foldl (fun acc e => dictSet acc e.1 e.2) d

/-- Python float truthiness from the carried literal: `0.0`-like literals
(all mantissa digits zero, no `inf`/`nan`) are falsy. -/
def pyFloatLitIsZero (s : String) : Bool :=
  let (_, cs) := dropSign (pyStrip s).toList
  let (mantissa, _) := splitAtExp cs
  mantissa.any Char.isDigit && mantissa.all (fun c => c = '0' || c = '.' || c = '_')

/-- Python truthiness (`if value:`). -/
def pyTruthy : Value → Bool
  | .vnone => false
  | .vbool b => b
  | .vint n => n ≠ 0
  | .vfloat lit => !pyFloatLitIsZero lit
  | .vstr s => s ≠ ""
  | .vdatetime _ => true
  | .vlist xs => !xs.isEmpty
  | .vdict es => !es.isEmpty

/-- Python `repr` of a string: quote with single quotes, or double quotes
when the text contains a single quote and no double quote.  (Escape
sequences are not modelled; no value in scope needs them.) -/
def strRepr (s : String) : String :=
  if s.toList.contains '\'' && !(s.toList.contains '"') then
    "\"" ++ s ++ "\""
  else
    "'" ++ s ++ "'"

/-- Python `repr` of a datetime, e.g. `datetime.datetime(2020, 12, 31, 13, 32)`
(trailing zero seconds/microseconds omitted, as CPython does). -/
def datetimeRepr (d : PyDateTime) : String :=
  let core := toString d.year ++ ", " ++ toString d.month ++ ", " ++ toString d.day ++
    ", " ++ toString d.hour ++ ", " ++ toString d.minute
  let core := if d.second ≠ 0 || d.microsecond ≠ 0 then core ++ ", " ++ toString d.second else core
  let core := if d.microsecond ≠ 0 then core ++ ", " ++ toString d.microsecond else core
  "datetime.datetime(" ++ core ++ ")"

/-- Comma-join for container reprs. -/
def joinComma : List String → String
  | [] => ""
  | [x] => x
  | x :: rest => x ++ ", " ++ joinComma rest

mutual

/-- Python `repr(value)` (mutually with its list/dict element forms). -/
def pyRepr : Value → String
  | .vnone => "None"
  | .vbool b => if b then "True" else "False"
  | .vint n => toString n
  | .vfloat lit => lit
  | .vstr s => strRepr s
  | .vdatetime d => datetimeRepr d
  | .vlist xs => "[" ++ joinComma (pyReprList xs) ++ "]"
  | .vdict es => "\x7b" ++ joinComma (pyReprEntries es) ++ "\x7d"

/-- Reprs of the elements of a list value. -/
def pyReprList : List Value → List String
  | [] => []
  | v :: rest => pyRepr v :: pyReprList rest

/-- Reprs of the `'key': value` entries of a dict value. -/
def pyReprEntries : List (String × Value) → List String
  | [] => []
  | (k, v) :: rest => (strRepr k ++ ": " ++ pyRepr v) :: pyReprEntries rest

end

/-- Python `str(value)`: the string itself for strings, `repr` otherwise
(containers repr their contents, as CPython does). -/
def pyStr : Value → String
  | .vstr s => s
  | v => pyRepr v

/-- Python `key in value` for a string key: dict key membership, substring
membership on strings; other receivers raise `TypeError` (list membership
would need element equality, which no value in scope exercises). -/
def pyContains (v : Value) (k : String) : Except PyError Bool :=
  match v with
  | .vdict es => .ok (dictContains es k)
  | .vstr s => .ok (strContainsSub s k)
  | .vlist xs => .ok (xs.any (fun x => match x with | .vstr s => s = k | _ => false))
  | _ => .error (.typeError "argument of type is not iterable")

/-- Python `value[key]` for a string key: dict lookup (with `KeyError`),
`TypeError` on any other receiver. -/
def pySubscript (v : Value) (k : String) : Except PyError Value :=
  match v with
  | .vdict es =>
    match alookup k es with
    | some x => .ok x
    | none => .error (.keyError k)
  | _ => .error (.typeError "value is not subscriptable by str")

/-! ## Scalar coders (`ValueTransformer` and its seven subclasses) -/

/-- The seven scalar coder classes of `transform.py`. -/
inductive ScalarKind where
  | text
  | int
  | float
  | bool
  | isoDate
  | isoZuluDate
  | emailDate
  deriving Repr, DecidableEq

/-- `BooleanTransformer.MAP`, in source order. -/
def boolMap : List (String × Bool) :=
  [("y", true), ("yes", true), ("true", true), ("t", true),
   ("no", false), ("n", false), ("false", false), ("f", false)]

/-- A scalar coder instance: its class, its `result_name`, and its
`default_value` (initialised to `None` by `ValueTransformer.__init__` and
never assigned anywhere in `src/source/xsbe/transform.py`). -/
structure ValueTransformer where
  kind : ScalarKind
  result_name : Option String
  default_value : Value

/-- Is the error a Python `ValueError`?  (The date-probing loop of
`_identify_text_type` catches exactly `ValueError`.) -/
def PyError.isValueError : PyError → Bool
  | .valueError _ => true
  | _ => false

/-- `transform_from_xml` of each scalar coder class, decoding element
text.  `int()`/`float()` reject with `ValueError`; the boolean map lookup
rejects with `KeyError`; the date coders reject with `ValueError` (or
`IndexError` for the Zulu coder on an empty string).  A decoded float
carries its stripped literal (see the file comment). -/
def scalarFromXml (k : ScalarKind) (value : String) : Except PyError Value :=
  match k with
  | .text => .ok (.vstr value)
  | .int =>
    match pyIntOfString value with
    | some n => .ok (.vint n)
    | none =>
      .error (.valueError ("invalid literal for int() with base 10: " ++ strRepr value))
  | .float =>
    if pyFloatAccepts value then .ok (.vfloat (pyStrip value))
    else .error (.valueError ("could not convert string to float: " ++ strRepr value))
  | .bool =>
    match alookup (strLower value) boolMap with
    | some b => .ok (.vbool b)
    | none => .error (.keyError (strLower value))
  | .isoDate => (isoDateFromXml value).map .vdatetime
  | .isoZuluDate => (isoZuluDateFromXml value).map .vdatetime
  | .emailDate => (emailDateFromXml value).map .vdatetime

/-- Zero-pad a natural number to a width. -/
def padNat (w n : Nat) : String :=
  let s := toString n
  if s.toList.length < w then String.mk (List.replicate (w - s.toList.length) '0') ++ s
  else s

/-- Python `datetime.isoformat()`: `YYYY-MM-DDTHH:MM:SS[.ffffff][±HH:MM]`
(microseconds omitted when zero; offset appended for aware values). -/
def isoformatStr (d : PyDateTime) : String :=
  let datePart := padNat 4 d.year ++ "-" ++ padNat 2 d.month ++ "-" ++ padNat 2 d.day
  let timePart := padNat 2 d.hour ++ ":" ++ padNat 2 d.minute ++ ":" ++ padNat 2 d.second
  let frac := if d.microsecond ≠ 0 then "." ++ padNat 6 d.microsecond else ""
  let tzPart :=
    match d.tzSeconds with
    | none => ""
    | some off =>
      let sign := if off < 0 then "-" else "+"
      let a := (if off < 0 then -off else off).toNat
      sign ++ padNat 2 (a / 3600) ++ ":" ++ padNat 2 ((a % 3600) / 60) ++
        (if a % 60 ≠ 0 then ":" ++ padNat 2 (a % 60) else "")
  datePart ++ "T" ++ timePart ++ frac ++ tzPart

/-- Days from the civil epoch 1970-01-01 (Howard Hinnant's algorithm),
used to model `datetime.timestamp()` for timezone-aware values. -/
def daysFromCivil (y m d : Int) : Int :=
  let y := y - (if m ≤ 2 then 1 else 0)
  let era := Int.fdiv y 400
  let yoe := y - era * 400
  let mp := if m > 2 then m - 3 else m + 9
  let doy := Int.fdiv (153 * mp + 2) 5 + d - 1
  let doe := yoe * 365 + Int.fdiv yoe 4 - Int.fdiv yoe 100 + doy
  era * 146097 + doe - 719468

/-- POSIX timestamp (whole seconds) of a timezone-aware datetime. -/
def epochOfAware (d : PyDateTime) (off : Int) : Int :=
  daysFromCivil d.year d.month d.day * 86400 +
    d.hour * 3600 + d.minute * 60 + d.second - off

/-- Model of `email.utils.formatdate(timeval, localtime=False)`: format a
POSIX timestamp (whole seconds) as an RFC 2822 date with `-0000` zone. -/
def formatdateUtc (t : Int) : String :=
  let days := Int.fdiv t 86400
  let secs := (Int.fmod t 86400).toNat
  -- civil date back from days (Hinnant's civil_from_days)
  let z := days + 719468
  let era := Int.fdiv z 146097
  let doe := z - era * 146097
  let yoe := Int.fdiv (doe - Int.fdiv doe 1460 + Int.fdiv doe 36524 - Int.fdiv doe 146096) 365
  let y := yoe + era * 400
  let doy := doe - (365 * yoe + Int.fdiv yoe 4 - Int.fdiv yoe 100)
  let mp := Int.fdiv (5 * doy + 2) 153
  let dayOfMonth := doy - Int.fdiv (153 * mp + 2) 5 + 1
  let m := if mp < 10 then mp + 3 else mp - 9
  let y := if m ≤ 2 then y + 1 else y
  let wd := (Int.fmod (days + 3) 7).toNat
  let dayName := ["Mon", "Tue", "Wed", "Thu", "Fri", "Sat", "Sun"].getD wd "Mon"
  let monName := ["Jan", "Feb", "Mar", "Apr", "May", "Jun", "Jul", "Aug",
                  "Sep", "Oct", "Nov", "Dec"].getD (m.toNat - 1) "Jan"
  dayName ++ ", " ++ padNat 2 dayOfMonth.toNat ++ " " ++ monName ++ " " ++
    padNat 4 y.toNat ++ " " ++ padNat 2 (secs / 3600) ++ ":" ++
    padNat 2 ((secs % 3600) / 60) ++ ":" ++ padNat 2 (secs % 60) ++ " -0000"

/-- `transform_to_xml` of each scalar coder class, encoding a value to
element text.
 * text: returns the value unchanged (modelled through `str()` for
   non-string values, which no claim exercises);
 * int/float: Python `str(value)` — defined on every object;
 * bool: `"true"`/`"false"` by truthiness;
 * dates: `.isoformat()` (plus `Z` for the Zulu coder) or RFC 2822
   formatting; a non-datetime receiver raises `AttributeError`/`TypeError`
   as in Python.  `datetime.fromtimestamp` / naive `.timestamp()` depend
   on the platform's local timezone and are outside the embedding; they
   are conservatively mapped to a `TypeError`-shaped failure (no claim in
   scope evaluates them). -/
def scalarToXml (k : ScalarKind) (v : Value) : Except PyError String :=
  match k with
  | .text => .ok (pyStr v)
  | .int => .ok (pyStr v)
  | .float => .ok (pyStr v)
  | .bool => .ok (if pyTruthy v then "true" else "false")
  | .isoDate =>
    match v with
    | .vdatetime d => .ok (isoformatStr d)
    | .vfloat _ => .error (.typeError "fromtimestamp depends on local time (not modelled)")
    | _ => .error (.attributeError "isoformat")
  | .isoZuluDate =>
    match v with
    | .vdatetime d => .ok (isoformatStr d ++ "Z")
    | .vfloat _ => .error (.typeError "fromtimestamp depends on local time (not modelled)")
    | _ => .error (.attributeError "isoformat")
  | .emailDate =>
    match v with
    | .vdatetime d =>
      match d.tzSeconds with
      | some off => .ok (formatdateUtc (epochOfAware d off))
      | none => .error (.typeError "naive timestamp depends on local time (not modelled)")
    | .vint n => .ok (formatdateUtc n)
    | .vfloat _ => .error (.typeError "float timestamp truncation not modelled")
    | _ => .error (.typeError "unsupported operand for formatdate")

/-- `_identify_text_type`: infer a scalar coder from one example literal.
Order: exact membership in `BooleanTransformer.MAP`; `float()` acceptance
(a `.` in the text selects float, otherwise int); then each date coder of
`DATE_TRANSFORMERS` in order (iso, iso-zulu, rfc822), first whose decode
does not raise `ValueError` (a non-`ValueError` escape propagates, hence
the `Except` result); finally text. -/
def identifyTextType (text : String) (rn : Option String) : Except PyError ValueTransformer :=
  if (alookup text boolMap).isSome then .ok ⟨.bool, rn, .vnone⟩
  else if pyFloatAccepts text then
    .ok (if containsDot text then ⟨.float, rn, .vnone⟩ else ⟨.int, rn, .vnone⟩)
  else
    match isoDateFromXml text with
    | .ok _ => .ok ⟨.isoDate, rn, .vnone⟩
    | .error e1 =>
      if !e1.isValueError then .error e1
      else
        match isoZuluDateFromXml text with
        | .ok _ => .ok ⟨.isoZuluDate, rn, .vnone⟩
        | .error e2 =>
          if !e2.isValueError then .error e2
          else
            match emailDateFromXml text with
            | .ok _ => .ok ⟨.emailDate, rn, .vnone⟩
            | .error e3 =>
              if !e3.isValueError then .error e3
              else .ok ⟨.text, rn, .vnone⟩

/-! ## XML elements (the ElementTree shape used by `transform.py`) -/

/-- An `xml.etree.ElementTree.Element`: tag in `\x7bns\x7dlocal` form,
attribute dict, optional body text, child elements.  (Iterating an
Element yields only child elements; whitespace-only interleaved text is
carried in `text`/tail slots, which the decode paths in scope read only
through `node.text`.) -/
inductive XmlElement where
  | mk (tag : String) (attrib : List (String × String)) (text : Option String)
       (children : List XmlElement)

/-- The element's tag. -/
def XmlElement.tag : XmlElement → String
  | .mk t _ _ _ => t

/-- The element's attribute dict. -/
def XmlElement.attrib : XmlElement → List (String × String)
  | .mk _ a _ _ => a

/-- The element's body text (`Element.text`). -/
def XmlElement.text : XmlElement → Option String
  | .mk _ _ t _ => t

/-- The element's child elements. -/
def XmlElement.children : XmlElement → List XmlElement
  | .mk _ _ _ c => c

/-- Generic Python-dict assignment for string-valued association lists
(attribute dicts): overwrite in place or append. -/
def assocSet {α : Type} (d : List (String × α)) (k : String) (v : α) :
    List (String × α) :=
  match d with
  | [] => [(k, v)]
  | (k', v') :: rest =>
    if k' = k then (k, v) :: rest else (k', v') :: assocSet rest k v

/-! ## The transformer tree

`BaseNodeTransformer` and its two subclasses, as one inductive: the shared
fields of the base class plus a `NodeKind` for the subclass-specific part
(`ElementNodeTransformer.children`, or `TextNodeTransformer`'s scalar
coder and `value_from`). -/

mutual

/-- Subclass-specific part of a node transformer. -/
inductive NodeKind where
  | element (children : List (String × NodeTransformer))
  | textNode (text_transformer : ValueTransformer) (value_from : Option String)

/-- A compiled node transformer: the `BaseNodeTransformer` fields
(`node_name`, `result_name`, `is_optional`, `is_repeating`, `flatten`,
`_ignore_unexpected`, `attributes`, `default_value`) plus its kind.
(`union_group` is assigned `None` once and never read; it is omitted.) -/
inductive NodeTransformer where
  | mk (node_name : String) (result_name : String)
       (is_optional is_repeating flatten ignore_unexpected : Bool)
       (attributes : List (String × ValueTransformer))
       (default_value : Value) (kind : NodeKind)

end

/-- Expected qualified tag of this node in input XML. -/
def NodeTransformer.node_name : NodeTransformer → String
  | .mk nn _ _ _ _ _ _ _ _ => nn

/-- Key under which this node's decoded value appears in the parent. -/
def NodeTransformer.result_name : NodeTransformer → String
  | .mk _ rn _ _ _ _ _ _ _ => rn

/-- Absence tolerated? (`True` unless the schema said `mandatory`.) -/
def NodeTransformer.is_optional : NodeTransformer → Bool
  | .mk _ _ b _ _ _ _ _ _ => b

/-- Collect multiple occurrences into a list? -/
def NodeTransformer.is_repeating : NodeTransformer → Bool
  | .mk _ _ _ b _ _ _ _ _ => b

/-- Merge the decoded mapping into the parent instead of nesting? -/
def NodeTransformer.flatten : NodeTransformer → Bool
  | .mk _ _ _ _ b _ _ _ _ => b

/-- The `ignore_unexpected` compile flag captured by this node. -/
def NodeTransformer.ignore_unexpected : NodeTransformer → Bool
  | .mk _ _ _ _ _ b _ _ _ => b

/-- Attribute coders of this node, keyed by attribute qname. -/
def NodeTransformer.attributes : NodeTransformer → List (String × ValueTransformer)
  | .mk _ _ _ _ _ _ a _ _ => a

/-- Decoded default value (`None` unless a text node had an XSBE
`default`). -/
def NodeTransformer.default_value : NodeTransformer → Value
  | .mk _ _ _ _ _ _ _ d _ => d

/-- The subclass-specific part. -/
def NodeTransformer.kind : NodeTransformer → NodeKind
  | .mk _ _ _ _ _ _ _ _ k => k

/-- Set `is_optional` (the compiler's `result.is_optional = False`). -/
def NodeTransformer.withOptional : NodeTransformer → Bool → NodeTransformer
  | .mk nn rn _ rep fl ig a d k, b => .mk nn rn b rep fl ig a d k

/-- Set `is_repeating`. -/
def NodeTransformer.withRepeating : NodeTransformer → Bool → NodeTransformer
  | .mk nn rn opt _ fl ig a d k, b => .mk nn rn opt b fl ig a d k

/-- Set `flatten`. -/
def NodeTransformer.withFlatten : NodeTransformer → Bool → NodeTransformer
  | .mk nn rn opt rep _ ig a d k, b => .mk nn rn opt rep b ig a d k

/-- Set the attribute coder dict. -/
def NodeTransformer.withAttributes : NodeTransformer → List (String × ValueTransformer) → NodeTransformer
  | .mk nn rn opt rep fl ig _ d k, a => .mk nn rn opt rep fl ig a d k

/-- Is the value Python `None`? (`value is None` / `is not None`.) -/
def Value.isNone : Value → Bool
  | .vnone => true
  | _ => false

/-- Truthiness of an optional string (`if self.value_from:`). -/
def optTruthy : Option String → Bool
  | none => false
  | some s => s ≠ ""

/-- The dict key for a scalar coder's `result_name`.  Attribute coders are
always constructed by the compiler with a string `result_name`, so the
`none` case is unreachable in compiled transformers. -/
def rnKey : Option String → String
  | some s => s
  | none => ""

/-! ## Decode direction (`transform_from_xml`) -/

/-- Inner loop of `BaseNodeTransformer._parse_attributes`: decode every
present attribute through its coder (`UnexpectedAttribute` for unknown
ones unless `ignore_unexpected`). -/
def parseAttributesGo (attrs : List (String × ValueTransformer)) (ig : Bool)
    (acc : List (String × Value)) :
    List (String × String) → Except PyError (List (String × Value))
  | [] => .ok acc
  | (name, value) :: rest =>
    match alookup name attrs with
    | none =>
      if ig then parseAttributesGo attrs ig acc rest
      else .error (.unexpectedAttribute name)
    | some tr =>
      match scalarFromXml tr.kind value with
      | .error e => .error e
      | .ok v => parseAttributesGo attrs ig (dictSet acc (rnKey tr.result_name) v) rest

/-- Defaults pass of `_parse_attributes`: install each coder's
`default_value` when its `result_name` is absent and the default is not
`None`. -/
def attrDefaultsGo (acc : List (String × Value)) :
    List (String × ValueTransformer) → List (String × Value)
  | [] => acc
  | (_, tr) :: rest =>
    if !dictContains acc (rnKey tr.result_name) && !tr.default_value.isNone then
      attrDefaultsGo (dictSet acc (rnKey tr.result_name) tr.default_value) rest
    else
      attrDefaultsGo acc rest

/-- `BaseNodeTransformer._parse_attributes`. -/
def parseAttributes (attrs : List (String × ValueTransformer)) (ig : Bool)
    (node_attrib : List (String × String)) : Except PyError (List (String × Value)) :=
  match parseAttributesGo attrs ig [] node_attrib with
  | .error e => .error e
  | .ok acc => .ok (attrDefaultsGo acc attrs)

/-- Pre-seeding step of `ElementNodeTransformer._parse_children`: the dict
comprehension `\x7bchild.result_name: [] for child in children if
child.is_repeating\x7d`. -/
def initRepeating (acc : List (String × Value)) :
    List (String × NodeTransformer) → List (String × Value)
  | [] => acc
  | (_, c) :: rest =>
    if c.is_repeating then initRepeating (dictSet acc c.result_name (.vlist [])) rest
    else initRepeating acc rest

/-- Python `result.update(src)` where `src` is whatever a child decode
returned: dicts merge (last write wins); an empty string or list is a
no-op; any other value raises as CPython does (`ValueError` for a
non-empty string of 1-character "items", `TypeError` for non-iterables). -/
def pyDictUpdateFrom (d : List (String × Value)) (src : Value) :
    Except PyError (List (String × Value)) :=
  match src with
  | .vdict es => .ok (dictUpdate d es)
  | .vstr s =>
    if s = "" then .ok d
    else .error (.valueError "dictionary update sequence element has length 1; 2 is required")
  | .vlist xs =>
    if xs.isEmpty then .ok d
    else .error (.typeError "cannot convert dictionary update sequence element to a sequence")
  | _ => .error (.typeError "object is not iterable")

/-- `ElementNodeTransformer._set_defaults`: for each declared child whose
`result_name` is absent, install its default when optional (and the
default is not `None`) or fail `MissingElement` when mandatory; a present
mandatory repeating child whose value is falsy (the collected empty list)
also fails `MissingElement`. -/
def setDefaultsGo (result : List (String × Value)) :
    List (String × NodeTransformer) → Except PyError (List (String × Value))
  | [] => .ok result
  | (name, tr) :: rest =>
    match dictGet? result tr.result_name with
    | none =>
      if tr.is_optional then
        if !tr.default_value.isNone then
          setDefaultsGo (dictSet result tr.result_name tr.default_value) rest
        else
          setDefaultsGo result rest
      else
        .error (.missingElement name)
    | some v =>
      if tr.is_repeating && !tr.is_optional && !pyTruthy v then
        .error (.missingElement name)
      else
        setDefaultsGo result rest

/-- Value extraction of `TextNodeTransformer.transform_from_xml` (lines
368-383): under `value_from`, read the attribute (child elements trigger
the source's own `node.children` slip — an `AttributeError`, since
ElementTree elements have no such attribute — unless `ignore_unexpected`);
otherwise reject child elements (`UnexpectedElement`, carrying the first
child; the embedding carries its tag) and read the body text, stripped,
with empty text becoming `None`. -/
def textExtract (value_from : Option String) (ig : Bool) (node : XmlElement) :
    Except PyError (Option String) :=
  if optTruthy value_from then
    if !node.children.isEmpty && !ig then
      .error (.attributeError "'xml.etree.ElementTree.Element' object has no attribute 'children'")
    else
      .ok (alookup (rnKey value_from) node.attrib)
  else if !node.children.isEmpty then
    .error (.unexpectedElement ((node.children.headD (.mk "" [] none [])).tag))
  else
    match node.text with
    | none => .ok none
    | some s =>
      let s' := pyStrip s
      .ok (if s' = "" then none else some s')

/-- `TextNodeTransformer.transform_from_xml`: extract the raw value; a
`None` value becomes the default when optional or fails
`ParseFailure("Missing text value")` when mandatory; otherwise decode
through the scalar coder; with attribute coders present, return a mapping
of the decoded attributes plus the `#value` key, else the bare value. -/
def textNodeFromXml (is_optional ig : Bool)
    (attrs : List (String × ValueTransformer)) (dflt : Value)
    (coder : ValueTransformer) (value_from : Option String)
    (node : XmlElement) : Except PyError Value :=
  match textExtract value_from ig node with
  | .error e => .error e
  | .ok extracted =>
    let valueE : Except PyError Value :=
      match extracted with
      | none =>
        if is_optional then .ok dflt
        else .error (.parseFailure "Missing text value")
      | some s => scalarFromXml coder.kind s
    match valueE with
    | .error e => .error e
    | .ok v =>
      if !attrs.isEmpty then
        match parseAttributes attrs ig node.attrib with
        | .error e => .error e
        | .ok result => .ok (.vdict (dictSet result "#value" v))
      else
        .ok v

mutual

/-- `BaseNodeTransformer.transform_from_xml` dispatch: element nodes parse
children, resolve defaults, then merge decoded attributes when attribute
coders exist; text nodes go through `textNodeFromXml`. -/
def transformFromXml (t : NodeTransformer) (node : XmlElement) : Except PyError Value :=
  match t with
  | .mk _ _ opt _ _ ig attrs dflt knd =>
    match knd with
    | .textNode coder value_from => textNodeFromXml opt ig attrs dflt coder value_from node
    | .element children =>
      match node with
      | .mk _ nattrib _ nchildren =>
        match parseChildrenGo children ig (initRepeating [] children) nchildren with
        | .error e => .error e
        | .ok result =>
          match setDefaultsGo result children with
          | .error e => .error e
          | .ok result2 =>
            if !attrs.isEmpty then
              match parseAttributes attrs ig nattrib with
              | .error e => .error e
              | .ok attrResult => .ok (.vdict (dictUpdate result2 attrResult))
            else
              .ok (.vdict result2)
termination_by structural node

/-- Child loop of `ElementNodeTransformer._parse_children`: look up each
XML child's transformer by tag (unknown tags skip under
`ignore_unexpected`, else `UnexpectedElement`); repeating children append
to their list, flatten children merge their decoded mapping (last write
wins), and other children set `result_name` — failing `DuplicateElement`
if that key is already present, *before* decoding the duplicate. -/
def parseChildrenGo (children : List (String × NodeTransformer)) (ig : Bool)
    (acc : List (String × Value)) (cs : List XmlElement) :
    Except PyError (List (String × Value)) :=
  match cs with
  | [] => .ok acc
  | c :: rest =>
    match alookup c.tag children with
    | none =>
      if ig then parseChildrenGo children ig acc rest
      else .error (.unexpectedElement c.tag)
    | some ct =>
      if ct.is_repeating then
        -- result[rn].append(decode(child)): the lookup and the `.append`
        -- attribute access happen before the argument is decoded
        match dictGet? acc ct.result_name with
        | none => .error (.keyError ct.result_name)
        | some (.vlist xs) =>
          match transformFromXml ct c with
          | .error e => .error e
          | .ok decoded =>
            parseChildrenGo children ig (dictSet acc ct.result_name (.vlist (xs ++ [decoded]))) rest
        | some _ => .error (.attributeError "append")
      else if ct.flatten then
        match transformFromXml ct c with
        | .error e => .error e
        | .ok decoded =>
          match pyDictUpdateFrom acc decoded with
          | .error e => .error e
          | .ok acc' => parseChildrenGo children ig acc' rest
      else
        if dictContains acc ct.result_name then
          .error (.duplicateElement c.tag (some ct.result_name))
        else
          match transformFromXml ct c with
          | .error e => .error e
          | .ok decoded => parseChildrenGo children ig (dictSet acc ct.result_name decoded) rest
termination_by structural cs

end

/-! ## Encode direction (`transform_to_xml`) -/

/-- Python `value.get(key, default)`: dict lookup with default;
`AttributeError` when the receiver is not a dict (no `.get`). -/
def pyGetDefault (v : Value) (k : String) (dflt : Value) : Except PyError Value :=
  match v with
  | .vdict es =>
    match alookup k es with
    | some x => .ok x
    | none => .ok dflt
  | _ => .error (.attributeError "get")

/-- `BaseNodeTransformer._attributes_to_xml`: encode each declared
attribute coder from the value mapping (`result_name` present → encode
that entry; else a non-`None` coder default → encode the default; else
omit).  `exclude` models the `exclude_attribute` parameter, which no call
site in `src/source/xsbe/transform.py` ever passes. -/
def attributesToXmlGo (value : Value) (exclude : Option String)
    (acc : List (String × String)) :
    List (String × ValueTransformer) → Except PyError (List (String × String))
  | [] => .ok acc
  | (name, tr) :: rest =>
    if exclude = some name then attributesToXmlGo value exclude acc rest
    else
      match pyContains value (rnKey tr.result_name) with
      | .error e => .error e
      | .ok true =>
        match pySubscript value (rnKey tr.result_name) with
        | .error e => .error e
        | .ok x =>
          match scalarToXml tr.kind x with
          | .error e => .error e
          | .ok s => attributesToXmlGo value exclude (assocSet acc name s) rest
      | .ok false =>
        if !tr.default_value.isNone then
          match scalarToXml tr.kind tr.default_value with
          | .error e => .error e
          | .ok s => attributesToXmlGo value exclude (assocSet acc name s) rest
        else
          attributesToXmlGo value exclude acc rest

/-- `TextNodeTransformer.transform_to_xml` (the override in
`src/source/xsbe/transform.py`, lines 399-407): build the element, encode
the attributes, then set `text_value = self._text_transformer
.transform_to_xml(value)` — the *whole* supplied value, not its `#value`
entry — and place it in the `value_from` attribute or the body text.
(The `_children_to_xml` method of the same class, which would extract
`#value`, is never called: this override does not use it.) -/
def textNodeToXml (node_name : String)
    (attrs : List (String × ValueTransformer)) (coder : ValueTransformer)
    (value_from : Option String) (value : Value) : Except PyError XmlElement :=
  match attributesToXmlGo value none [] attrs with
  | .error e => .error e
  | .ok attribs =>
    match scalarToXml coder.kind value with
    | .error e => .error e
    | .ok text_value =>
      match value_from with
      | some vf => .ok (.mk node_name (assocSet attribs vf text_value) none [])
      | none => .ok (.mk node_name attribs (some text_value) [])

/-- `TextNodeTransformer._children_to_xml` (lines 409-416): the body-text
builder that *would* take the body from the `#value` key of a mapping
when attribute coders exist (`TypeError` for a non-dict) — dead code in
`src/source/xsbe/transform.py`, kept here to witness the divergence. -/
def textNodeChildrenToXml (node_name : String)
    (attrs : List (String × ValueTransformer)) (coder : ValueTransformer)
    (value_from : Option String) (value : Value) : Except PyError (List String) :=
  if value_from.isSome then .ok []
  else
    match (if !attrs.isEmpty then
             match value with
             | .vdict es =>
               match alookup "#value" es with
               | some x => Except.ok x
               | none => Except.error (PyError.keyError "#value")
             | _ => Except.error (PyError.typeError (node_name ++ " expects dict"))
           else Except.ok value) with
    | .error e => .error e
    | .ok v =>
      match scalarToXml coder.kind v with
      | .error e => .error e
      | .ok s => .ok [s]

mutual

/-- `transform_to_xml` dispatch: `ElementNodeTransformer.transform_to_xml`
builds an element from the attribute coders and the child loop; text
nodes go through `textNodeToXml`. -/
def transformToXml (t : NodeTransformer) (value : Value) : Except PyError XmlElement :=
  match t with
  | .mk node_name _ _ _ _ _ attrs _ knd =>
    match knd with
    | .textNode coder value_from => textNodeToXml node_name attrs coder value_from value
    | .element children =>
      match attributesToXmlGo value none [] attrs with
      | .error e => .error e
      | .ok attribs =>
        match childrenToXmlGo children value with
        | .error e => .error e
        | .ok childNodes => .ok (.mk node_name attribs none childNodes)
termination_by (sizeOf t, 0, 0)
decreasing_by
  all_goals simp_wf
  all_goals apply Prod.Lex.left
  all_goals omega

/-- Child loop of `ElementNodeTransformer._children_to_xml`, in schema
declaration order: repeating children encode every item of the list under
`result_name` (absent → `[]`; non-list → `TypeError`); flatten children
receive the current mapping unchanged; optional children fall back to
their default and are skipped when `None`; mandatory children index the
mapping directly (`KeyError` when absent).  Any non-repeating child whose
selected value is `None` is skipped. -/
def childrenToXmlGo (children : List (String × NodeTransformer)) (value : Value) :
    Except PyError (List XmlElement)
  :=
  match children with
  | [] => .ok []
  | (_, child) :: rest =>
    let cvE : Except PyError Value :=
      if child.is_repeating then
        pyGetDefault value child.result_name (.vlist [])
      else if child.flatten then
        .ok value
      else if child.is_optional then
        pyGetDefault value child.result_name child.default_value
      else
        pySubscript value child.result_name
    match cvE with
    | .error e => .error e
    | .ok cv =>
      if child.is_repeating then
        match cv with
        | .vlist items =>
          match encodeRepeatGo child items with
          | .error e => .error e
          | .ok nodes =>
            match childrenToXmlGo rest value with
            | .error e => .error e
            | .ok restNodes => .ok (nodes ++ restNodes)
        | _ => .error (.typeError (child.result_name ++ " must be a list"))
      else
        if cv.isNone then childrenToXmlGo rest value
        else
          match transformToXml child cv with
          | .error e => .error e
          | .ok node =>
            match childrenToXmlGo rest value with
            | .error e => .error e
            | .ok restNodes => .ok (node :: restNodes)
termination_by (sizeOf children, 2, 0)
decreasing_by
  all_goals simp_wf
  all_goals apply Prod.Lex.left
  all_goals omega

/-- Item loop for a repeating child: encode each list element through the
child transformer. -/
def encodeRepeatGo (child : NodeTransformer) (items : List Value) :
    Except PyError (List XmlElement) :=
  match items with
  | [] => .ok []
  | v :: rest =>
    match transformToXml child v with
    | .error e => .error e
    | .ok node =>
      match encodeRepeatGo child rest with
      | .error e => .error e
      | .ok nodes => .ok (node :: nodes)
termination_by (sizeOf child, 1, sizeOf items)
decreasing_by
  all_goals simp_wf
  all_goals first
  | (apply Prod.Lex.right; apply Prod.Lex.left; omega)
  | (apply Prod.Lex.right; apply Prod.Lex.right; omega)

end

/-! ## Document transformer -/

/-- `DocumentTransformer`: the expected root tag and the root node
transformer. -/
structure DocumentTransformer where
  name : String
  root_transformer : NodeTransformer

/-- `DocumentTransformer.transform_from_xml`: check the root tag
(`IncorrectRoot` on mismatch) and decode through the root transformer. -/
def DocumentTransformer.transform_from_xml (dt : DocumentTransformer)
    (value : XmlElement) : Except PyError Value :=
  if value.tag ≠ dt.name then .error (.incorrectRoot dt.name value.tag)
  else transformFromXml dt.root_transformer value

/-- `DocumentTransformer.transform_to_xml`: encode through the root
transformer. -/
def DocumentTransformer.transform_to_xml (dt : DocumentTransformer)
    (value : Value) : Except PyError XmlElement :=
  transformToXml dt.root_transformer value

/-! ## The schema compiler

`create_transformer` and `_create_element_transformer` from
`src/source/xsbe/transform.py`.  The file/stream loading convenience at
the top of `create_transformer` is I/O at the boundary and outside the
embedding; the embedding starts at its `ElementTree.Element` input. -/

/-- The reserved namespace in ElementTree qualified form. -/
def XSBE_SCHEMA_URI : String := "\x7bhttp://xsbe.couling.uk\x7d"

/-- `\x7bXSBE\x7dschema-by-example`. -/
def SCHEMA_NODE_NAME : String := XSBE_SCHEMA_URI ++ "schema-by-example"

/-- `\x7bXSBE\x7droot`. -/
def ROOT_NODE_NAME : String := XSBE_SCHEMA_URI ++ "root"

/-- `\x7bXSBE\x7dname`. -/
def ATTRIBUTE_RESULT_NAME : String := XSBE_SCHEMA_URI ++ "name"

/-- `\x7bXSBE\x7ddefault`. -/
def ATTRIBUTE_DEFAULT : String := XSBE_SCHEMA_URI ++ "default"

/-- `\x7bXSBE\x7dtype`. -/
def ATTRIBUTE_TYPE : String := XSBE_SCHEMA_URI ++ "type"

/-- `\x7bXSBE\x7dvalue-from`. -/
def ATTRIBUTE_VALUE_FROM : String := XSBE_SCHEMA_URI ++ "value-from"

/-- `QualifiedName` (the Python field `namespace` is `nspace` here, since
`namespace` is a Lean keyword). -/
structure QualifiedName where
  nspace : Option String
  name : String

/-- `split_qualified_name`: split a `\x7bns\x7dlocal` tag.  (For a tag
starting `\x7b` with no closing brace, CPython's `str.index` would raise;
ElementTree never produces such a tag, and the embedding returns the tag
unsplit.) -/
def split_qualified_name (tag : String) : QualifiedName :=
  match tag.toList with
  | '{' :: rest =>
    match splitAtFirst '}' rest with
    | some (ns, rest2) => ⟨some (String.mk ns), String.mk rest2⟩
    | none => ⟨none, tag⟩
  | _ => ⟨none, tag⟩

/-- Does the example element's `text` select the text-node branch?
(`element.text and element.text.strip()`.) -/
def textTruthy : Option String → Bool
  | none => false
  | some s => s ≠ "" && pyStrip s ≠ ""

/-- Apply the XSBE `type` attribute (default `optional`): `mandatory` →
`is_optional = False`, `repeating` → `is_repeating = True`, `flatten` →
`flatten = True`, anything else → `ParseFailure` (unknown node type). -/
def applyNodeType (attrib : List (String × String)) (t : NodeTransformer) :
    Except PyError NodeTransformer :=
  let node_type := (alookup ATTRIBUTE_TYPE attrib).getD "optional"
  if node_type = "optional" then .ok t
  else if node_type = "mandatory" then .ok (t.withOptional false)
  else if node_type = "repeating" then .ok (t.withRepeating true)
  else if node_type = "flatten" then .ok (t.withFlatten true)
  else .error (.parseFailure ("Unknown node type " ++ node_type))

/-- The attribute-coder loop of `_create_element_transformer`: for every
attribute outside the XSBE namespace (and other than `exclude_attribute`),
infer a coder from its example value; its `result_name` is the raw qname
when the attribute has a namespace different from the element's, else the
local name. -/
def collectAttributeCoders (element_tag : String) (exclude : Option String)
    (acc : List (String × ValueTransformer)) :
    List (String × String) → Except PyError (List (String × ValueTransformer))
  | [] => .ok acc
  | (name, value) :: rest =>
    if exclude = some name then
      collectAttributeCoders element_tag exclude acc rest
    else if strStarts name XSBE_SCHEMA_URI then
      collectAttributeCoders element_tag exclude acc rest
    else
      let split_name := split_qualified_name name
      let rn :=
        if split_name.nspace ≠ none &&
           split_name.nspace ≠ (split_qualified_name element_tag).nspace then name
        else split_name.name
      match identifyTextType value (some rn) with
      | .error e => .error e
      | .ok coder => collectAttributeCoders element_tag exclude (assocSet acc name coder) rest

/-- The `TextNodeTransformer` constructor: a non-`None` `default_value`
string is decoded through the text coder at compile time (and can
raise). -/
def makeTextNode (tag result_name : String) (ig : Bool)
    (coder : ValueTransformer) (default_raw : Option String)
    (value_from : Option String) : Except PyError NodeTransformer :=
  match default_raw with
  | none => .ok (.mk tag result_name true false false ig [] .vnone (.textNode coder value_from))
  | some d =>
    match scalarFromXml coder.kind d with
    | .error e => .error e
    | .ok dv => .ok (.mk tag result_name true false false ig [] dv (.textNode coder value_from))

mutual

/-- `_create_element_transformer`: classify the example element (non-blank
body text → text node after mixed-content check; XSBE `value-from` → text
node reading that attribute, whose coder is inferred from the example's
value of that attribute — a `KeyError` if the example lacks it; otherwise
an element node compiled from the children, keyed by tag), then attach
attribute coders and apply the XSBE `type` attribute. -/
def createElementTransformer (element : XmlElement) (ig : Bool) :
    Except PyError NodeTransformer :=
  match element with
  | .mk tag attrib text children =>
    let result_name := (alookup ATTRIBUTE_RESULT_NAME attrib).getD
      (split_qualified_name tag).name
    let baseE : Except PyError (NodeTransformer × Option String) :=
      if textTruthy text then
        if !children.isEmpty then
          .error (.parseFailure "Cannot represent mixed content XML documents")
        else
          match identifyTextType (pyStrip ((text).getD "")) none with
          | .error e => .error e
          | .ok coder =>
            match makeTextNode tag result_name ig coder (alookup ATTRIBUTE_DEFAULT attrib) none with
            | .error e => .error e
            | .ok t => .ok (t, none)
      else
        match alookup ATTRIBUTE_VALUE_FROM attrib with
        | some vfRaw =>
          let value_from := (split_qualified_name vfRaw).name
          match alookup value_from attrib with
          | none => .error (.keyError value_from)
          | some exampleVal =>
            match identifyTextType exampleVal none with
            | .error e => .error e
            | .ok coder =>
              match makeTextNode tag result_name ig coder (alookup ATTRIBUTE_DEFAULT attrib)
                  (some value_from) with
              | .error e => .error e
              | .ok t => .ok (t, some value_from)
        | none =>
          match createChildrenGo ig [] children with
          | .error e => .error e
          | .ok kids =>
            .ok (.mk tag result_name true false false ig [] .vnone (.element kids), none)
    match baseE with
    | .error e => .error e
    | .ok (base, exclude) =>
      match collectAttributeCoders tag exclude [] attrib with
      | .error e => .error e
      | .ok coders => applyNodeType attrib (base.withAttributes coders)
termination_by structural element

/-- The children dict comprehension of the element-node branch:
`\x7bchild.tag: _create_element_transformer(child) for child in element\x7d`
(a later child with the same tag overwrites an earlier one, as in a dict
comprehension). -/
def createChildrenGo (ig : Bool) (acc : List (String × NodeTransformer))
    (cs : List XmlElement) : Except PyError (List (String × NodeTransformer)) :=
  match cs with
  | [] => .ok acc
  | c :: rest =>
    match createElementTransformer c ig with
    | .error e => .error e
    | .ok t => createChildrenGo ig (assocSet acc c.tag t) rest
termination_by structural cs

end

/-- `_create_root_transformer`: compile the example root element and wrap
it in a `DocumentTransformer` pinned to that element's tag. -/
def createRootTransformer (root_node : XmlElement) (ig : Bool) :
    Except PyError DocumentTransformer :=
  match createElementTransformer root_node ig with
  | .error e => .error e
  | .ok t => .ok ⟨root_node.tag, t⟩

/-- The envelope scan of `create_transformer`: walk the children of a
`schema-by-example` element, compiling each `\x7bXSBE\x7droot` child
(which must contain exactly one element); a second `root` is a
`DuplicateElement`. -/
def envelopeScan (ig : Bool) (acc : Option DocumentTransformer) :
    List XmlElement → Except PyError (Option DocumentTransformer)
  | [] => .ok acc
  | c :: rest =>
    if c.tag = ROOT_NODE_NAME then
      if acc.isSome then .error (.duplicateElement ROOT_NODE_NAME none)
      else
        match c.children with
        | [inner] =>
          match createRootTransformer inner ig with
          | .error e => .error e
          | .ok dr => envelopeScan ig (some dr) rest
        | _ => .error (.parseFailure (ROOT_NODE_NAME ++ " must contain exactly one child element"))
    else
      envelopeScan ig acc rest

/-- `create_transformer` (from its `ElementTree.Element` input): a
`schema-by-example` root selects the full envelope form (exactly one
`root` child wraps the example; none is `MissingElement`); any other root
tag selects lite mode, where the schema document itself is the example
root. -/
def createTransformer (schema_document : XmlElement) (ig : Bool) :
    Except PyError DocumentTransformer :=
  if schema_document.tag = SCHEMA_NODE_NAME then
    match envelopeScan ig none schema_document.children with
    | .error e => .error e
    | .ok none => .error (.missingElement ROOT_NODE_NAME)
    | .ok (some dr) => .ok dr
  else
    -- Lite mode schemas do not have enclosing nodes.
    createRootTransformer schema_document ig

/-! ## Concrete instances used by the claim theorems -/

/-- Lite schema `<value id="1">27</value>`: a text-node leaf with one
attribute coder, both inferred as int. -/
def schemaLeafWithAttr : XmlElement := .mk "value" [("id", "1")] (some "27") []

/-- The transformer compiled from `schemaLeafWithAttr`. -/
def dtLeafWithAttr : DocumentTransformer :=
  ⟨"value", .mk "value" "value" true false false false
    [("id", ⟨.int, some "id", .vnone⟩)] .vnone (.textNode ⟨.int, none, .vnone⟩ none)⟩

/-- The decoded (hence schema-conformant) form of `<value id="1">27</value>`:
the documented `\x7battrs..., "#value": decoded\x7d` mapping. -/
def valueLeafWithAttr : Value := .vdict [("id", .vint 1), ("#value", .vint 27)]

/-- What encoding `valueLeafWithAttr` actually produces: the body text is
`str()` of the whole mapping pushed through the int coder. -/
def encodedLeafWithAttr : XmlElement :=
  .mk "value" [("id", "1")] (some "\x7b'id': 1, '#value': 27\x7d") []

/-- C1.  For every document transformer `dt` compiled from a schema and
every schema-conformant data value `v`, the claim says
`transform_from_xml (transform_to_xml v) = v`.  The code violates this:
for the leaf-with-attribute schema `<value id="1">27</value>`, the value
`\x7b'id': 1, '#value': 27\x7d` — the very value decode produces for the schema's
own example document — encodes to an element whose body text is the
`str()` of the whole mapping (because `TextNodeTransformer.transform_to_xml`
feeds the entire value to the scalar coder instead of its `#value`
entry), so decoding the encoded document raises `ValueError` instead of
returning `v`. -/
theorem roundtrip_fails_on_text_node_with_attributes :
    createTransformer schemaLeafWithAttr false = .ok dtLeafWithAttr ∧
    dtLeafWithAttr.transform_from_xml schemaLeafWithAttr = .ok valueLeafWithAttr ∧
    dtLeafWithAttr.transform_to_xml valueLeafWithAttr = .ok encodedLeafWithAttr ∧
    dtLeafWithAttr.transform_from_xml encodedLeafWithAttr =
      .error (.valueError "invalid literal for int() with base 10: \"\x7b'id': 1, '#value': 27\x7d\"") := by
  refine ⟨rfl, rfl, ?_, rfl⟩
  show transformToXml (.mk "value" "value" true false false false
    [("id", ⟨.int, some "id", .vnone⟩)] .vnone (.textNode ⟨.int, none, .vnone⟩ none))
    valueLeafWithAttr = .ok encodedLeafWithAttr
  rw [transformToXml]
  rfl

/-- Lite schema `<value id="3">42</value>` for the C6 instance. -/
def schemaLeafC6 : XmlElement := .mk "value" [("id", "3")] (some "42") []

/-- The transformer compiled from `schemaLeafC6`. -/
def dtLeafC6 : DocumentTransformer :=
  ⟨"value", .mk "value" "value" true false false false
    [("id", ⟨.int, some "id", .vnone⟩)] .vnone (.textNode ⟨.int, none, .vnone⟩ none)⟩

/-- A `\x7battrs, #value\x7d` mapping for the C6 text node. -/
def valueC6 : Value := .vdict [("id", .vint 2), ("#value", .vint 9)]

/-- C6.  The claim says that a text-node transformer with attribute coders
encodes the body text from the `#value` key of the supplied mapping.  The
live code path (`TextNodeTransformer.transform_to_xml`, which never calls
`_children_to_xml`) instead encodes the *whole mapping* through the
scalar coder: the element body becomes `str(\x7b'id': 2, '#value': 9\x7d)`, not
`"9"`.  The dead `_children_to_xml` method of the same class would have
produced `"9"`, witnessing the intended behavior. -/
theorem text_node_attr_encode_uses_whole_mapping :
    createTransformer schemaLeafC6 false = .ok dtLeafC6 ∧
    dtLeafC6.transform_to_xml valueC6 =
      .ok (.mk "value" [("id", "2")] (some "\x7b'id': 2, '#value': 9\x7d") []) ∧
    textNodeChildrenToXml "value" [("id", ⟨.int, some "id", .vnone⟩)]
      ⟨.int, none, .vnone⟩ none valueC6 = .ok ["9"] := by
  refine ⟨rfl, ?_, rfl⟩
  show transformToXml (.mk "value" "value" true false false false
    [("id", ⟨.int, some "id", .vnone⟩)] .vnone (.textNode ⟨.int, none, .vnone⟩ none))
    valueC6 = _
  rw [transformToXml]
  rfl

/-- C2.  For a text-node transformer whose extracted value is null
(absent `value_from` attribute, or no/empty body text — exactly the
`textExtract … = ok none` hypothesis): when optional, decode substitutes
the node's default value into the result (bare, or under `#value` when
attribute coders exist); when mandatory, decode fails with the
missing-text-value `ParseFailure`. -/
theorem text_node_null_uses_default_or_fails
    (nn rn : String) (rep fl ig : Bool) (attrs : List (String × ValueTransformer))
    (dflt : Value) (coder : ValueTransformer) (vf : Option String) (node : XmlElement)
    (hnull : textExtract vf ig node = .ok none) :
    (transformFromXml (.mk nn rn true rep fl ig attrs dflt (.textNode coder vf)) node =
      (if !attrs.isEmpty then
         match parseAttributes attrs ig node.attrib with
         | .error e => .error e
         | .ok result => .ok (.vdict (dictSet result "#value" dflt))
       else .ok dflt)) ∧
    (transformFromXml (.mk nn rn false rep fl ig attrs dflt (.textNode coder vf)) node =
      .error (.parseFailure "Missing text value")) := by
  constructor
  · simp only [transformFromXml, textNodeFromXml, hnull]
    rfl
  · simp only [transformFromXml, textNodeFromXml, hnull]
    rfl

/-- Witness for C2: an empty `<value/>` element under a text node with
default `5` decodes to `5` when optional and fails the missing-text-value
`ParseFailure` when mandatory. -/
theorem text_node_null_witness :
    textExtract none false (.mk "value" [] none []) = .ok none ∧
    transformFromXml (.mk "value" "value" true false false false [] (.vint 5)
      (.textNode ⟨.text, none, .vnone⟩ none)) (.mk "value" [] none []) = .ok (.vint 5) ∧
    transformFromXml (.mk "value" "value" false false false false [] (.vint 5)
      (.textNode ⟨.text, none, .vnone⟩ none)) (.mk "value" [] none []) =
      .error (.parseFailure "Missing text value") := by
  have h := text_node_null_uses_default_or_fails "value" "value" false false false []
    (.vint 5) ⟨.text, none, .vnone⟩ none (.mk "value" [] none []) rfl
  exact ⟨rfl, h.1, h.2⟩

/-- C3.  A schema document whose root tag is not the XSBE
`schema-by-example` envelope compiles in lite mode: `create_transformer`
hands the schema document itself to `_create_root_transformer`, and any
transformer it produces has the document element's own qualified tag as
its expected root qname. -/
theorem lite_mode_uses_document_as_root
    (doc : XmlElement) (ig : Bool) (h : doc.tag ≠ SCHEMA_NODE_NAME) :
    createTransformer doc ig =
      (createElementTransformer doc ig).map (fun root => ⟨doc.tag, root⟩) ∧
    (∀ dt, createTransformer doc ig = .ok dt → dt.name = doc.tag) := by
  have hbranch : createTransformer doc ig = createRootTransformer doc ig := by
    unfold createTransformer
    rw [if_neg h]
  constructor
  · rw [hbranch]
    unfold createRootTransformer
    cases createElementTransformer doc ig <;> rfl
  · intro dt hdt
    rw [hbranch] at hdt
    unfold createRootTransformer at hdt
    cases hc : createElementTransformer doc ig <;> rw [hc] at hdt
    · exact absurd hdt (by simp)
    · simp only [Except.ok.injEq] at hdt
      rw [← hdt]

/-- Witness for C3: the lite schema `<person><name>Philip</name></person>`
(no envelope) compiles to a transformer whose expected root qname is
`person`. -/
theorem lite_mode_witness :
    ("person" : String) ≠ SCHEMA_NODE_NAME ∧
    ∃ dt, createTransformer (.mk "person" [] none
            [.mk "name" [] (some "Philip") []]) false = .ok dt ∧ dt.name = "person" := by
  have h := lite_mode_uses_document_as_root
    (.mk "person" [] none [.mk "name" [] (some "Philip") []]) false (by decide)
  refine ⟨by decide, ⟨"person", .mk "person" "person" true false false false [] .vnone
    (.element [("name", .mk "name" "name" true false false false [] .vnone
      (.textNode ⟨.text, none, .vnone⟩ none))])⟩, rfl, ?_⟩
  exact h.2 _ rfl

/-- C4 counterexample.  The int coder applied to `lorem ipsum` does fail,
but the error is not any of the library's structured `ParseFailure` kinds
(there is no `BadScalar` class in the code at all): it is a bare builtin
`ValueError`. -/
theorem bad_scalar_error_is_unclassified :
    failsAtAll (scalarFromXml .int "lorem ipsum") = true ∧
    failsStructured (scalarFromXml .int "lorem ipsum") = false ∧
    scalarFromXml .int "lorem ipsum" =
      .error (.valueError "invalid literal for int() with base 10: 'lorem ipsum'") := by
  exact ⟨rfl, rfl, rfl⟩

/-- C4 as amended.  When a scalar coder rejects its text, the failure
surfaces to the caller as a builtin unclassified exception — `ValueError`
from the int coder, `KeyError` from the boolean coder — never as one of
the library's structured `ParseFailure` kinds (the repository's own tests
assert `ValueError` for this case). -/
theorem scalar_rejection_raises_builtin :
    (∀ s : String, pyIntOfString s = none →
      scalarFromXml .int s =
        .error (.valueError ("invalid literal for int() with base 10: " ++ strRepr s)) ∧
      failsStructured (scalarFromXml .int s) = false) ∧
    (∀ w : String, alookup (strLower w) boolMap = none →
      scalarFromXml .bool w = .error (.keyError (strLower w)) ∧
      failsStructured (scalarFromXml .bool w) = false) := by
  constructor
  · intro s hs
    constructor
    · simp only [scalarFromXml, hs]
    · simp only [failsStructured, scalarFromXml, hs]
      rfl
  · intro w hw
    constructor
    · simp only [scalarFromXml, hw]
    · simp only [failsStructured, scalarFromXml, hw]
      rfl

/-- Witness for the amended C4, at `lorem ipsum` for the int coder and
`maybe` for the boolean coder. -/
theorem scalar_rejection_witness :
    pyIntOfString "lorem ipsum" = none ∧
    scalarFromXml .int "lorem ipsum" =
      .error (.valueError "invalid literal for int() with base 10: 'lorem ipsum'") ∧
    alookup (strLower "maybe") boolMap = none ∧
    scalarFromXml .bool "maybe" = .error (.keyError "maybe") := by
  have h := scalar_rejection_raises_builtin
  exact ⟨rfl, (h.1 "lorem ipsum" rfl).1, rfl, (h.2 "maybe" rfl).1⟩

/-- The rfc822 example text of the C5 scenario. -/
def rfc822Example : String := "Mon, 16 Nov 2009 13:32:02 +0400"

/-- C5 counterexample.  The leaf compiled from `2020-12-31` does lock in
the iso-date coder, and decoding the rfc822 text through that coder does
fail — but not with a structured `BadScalar` kind (no such kind exists):
the failure is a bare builtin `ValueError` from `fromisoformat`. -/
theorem date_lock_in_failure_is_unclassified :
    identifyTextType "2020-12-31" none = .ok ⟨.isoDate, none, .vnone⟩ ∧
    failsAtAll (scalarFromXml .isoDate rfc822Example) = true ∧
    failsStructured (scalarFromXml .isoDate rfc822Example) = false := by
  exact ⟨rfl, rfl, rfl⟩

/-- C5 as amended.  `_identify_text_type` probes the date coders in the
`DATE_TRANSFORMERS` order iso-date, iso-zulu-date, rfc822 — the first
whose decode does not raise `ValueError` wins (after the boolean and
numeric probes have declined) — and the chosen coder is frozen into the
compiled transformer: the leaf compiled from `2020-12-31` locks in
iso-date, so decoding the rfc822 text through that leaf fails with an
unclassified builtin `ValueError` (the code defines no `BadScalar`
kind). -/
theorem date_probe_order_and_lock_in :
    (∀ (text : String) (rn : Option String) (d : PyDateTime),
      alookup text boolMap = none → pyFloatAccepts text = false →
      isoDateFromXml text = .ok d →
      identifyTextType text rn = .ok ⟨.isoDate, rn, .vnone⟩) ∧
    (∀ (text : String) (rn : Option String) (m : String) (d : PyDateTime),
      alookup text boolMap = none → pyFloatAccepts text = false →
      isoDateFromXml text = .error (.valueError m) →
      isoZuluDateFromXml text = .ok d →
      identifyTextType text rn = .ok ⟨.isoZuluDate, rn, .vnone⟩) ∧
    (∀ (text : String) (rn : Option String) (m m' : String) (d : PyDateTime),
      alookup text boolMap = none → pyFloatAccepts text = false →
      isoDateFromXml text = .error (.valueError m) →
      isoZuluDateFromXml text = .error (.valueError m') →
      emailDateFromXml text = .ok d →
      identifyTextType text rn = .ok ⟨.emailDate, rn, .vnone⟩) ∧
    (identifyTextType "2020-12-31" none = .ok ⟨.isoDate, none, .vnone⟩ ∧
     scalarFromXml .isoDate rfc822Example =
       .error (.valueError ("Invalid isoformat string: " ++ rfc822Example)) ∧
     failsStructured (scalarFromXml .isoDate rfc822Example) = false) := by
  refine ⟨?_, ?_, ?_, rfl, rfl, rfl⟩
  · intro text rn d hb hf hiso
    simp only [identifyTextType, hb, hf, hiso, Option.isSome_none, Bool.false_eq_true,
      if_false, if_neg]
  · intro text rn m d hb hf hiso hzulu
    simp only [identifyTextType, hb, hf, hiso, hzulu]
    rfl
  · intro text rn m m' d hb hf hiso hzulu hemail
    simp only [identifyTextType, hb, hf, hiso, hzulu, hemail]
    rfl

/-- Witness for the amended C5, at the `2020-12-31` leaf of the scenario:
the first probe clause applies and picks the iso-date coder. -/
theorem date_probe_order_witness :
    alookup "2020-12-31" boolMap = none ∧
    pyFloatAccepts "2020-12-31" = false ∧
    isoDateFromXml "2020-12-31" =
      .ok ⟨2020, 12, 31, 0, 0, 0, 0, none⟩ ∧
    identifyTextType "2020-12-31" none = .ok ⟨.isoDate, none, .vnone⟩ := by
  exact ⟨rfl, rfl, rfl,
    date_probe_order_and_lock_in.1 "2020-12-31" none ⟨2020, 12, 31, 0, 0, 0, 0, none⟩
      rfl rfl rfl⟩

/-- C7 counterexample.  `Yes` is a case-insensitive member of the boolean
word set (its lowercasing is a key of `BooleanTransformer.MAP`), yet type
inference selects the *text* coder for it, not the boolean coder: the
membership probe `text in BooleanTransformer.MAP` is case-sensitive. -/
theorem boolean_probe_is_case_sensitive :
    alookup (strLower "Yes") boolMap = some true ∧
    identifyTextType "Yes" none = .ok ⟨.text, none, .vnone⟩ := by
  exact ⟨rfl, rfl⟩

/-- C7 as amended.  For every example literal that is an *exact* (hence
lowercase) member of the boolean word set
`\x7by, yes, true, t, n, no, false, f\x7d`, the first probe of type inference
selects the boolean coder for that leaf.  (Mixed-case spellings such as
`Yes` fall through to the other probes, even though the boolean coder's
own decode lowercases its input.) -/
theorem boolean_probe_selects_bool_coder
    (text : String) (rn : Option String) (b : Bool)
    (h : alookup text boolMap = some b) :
    identifyTextType text rn = .ok ⟨.bool, rn, .vnone⟩ := by
  simp only [identifyTextType, h, Option.isSome_some, if_true]

/-- Witness for the amended C7 at the literal `yes`. -/
theorem boolean_probe_witness :
    alookup "yes" boolMap = some true ∧
    identifyTextType "yes" (some "flag") = .ok ⟨.bool, some "flag", .vnone⟩ := by
  exact ⟨rfl, boolean_probe_selects_bool_coder "yes" (some "flag") true rfl⟩

/-- C8.  During element-node decode, a non-repeating, non-flatten child
whose `result_name` is already present in the output mapping makes the
parse fail `DuplicateElement` (carrying the XML tag and the
`result_name`), before the duplicate child is even decoded. -/
theorem duplicate_result_name_fails
    (children : List (String × NodeTransformer)) (ig : Bool)
    (acc : List (String × Value)) (c : XmlElement) (rest : List XmlElement)
    (ct : NodeTransformer)
    (hlook : alookup c.tag children = some ct)
    (hrep : ct.is_repeating = false) (hfl : ct.flatten = false)
    (hdup : dictContains acc ct.result_name = true) :
    parseChildrenGo children ig acc (c :: rest) =
      .error (.duplicateElement c.tag (some ct.result_name)) := by
  simp only [parseChildrenGo, hlook, hrep, hfl, hdup, Bool.false_eq_true, if_false, if_true]

/-- The compiled `person` node of the value-from scenario: a text node
reading its value from the `name` attribute. -/
def personValueFrom : NodeTransformer :=
  .mk "person" "person" true false false true [] .vnone
    (.textNode ⟨.text, none, .vnone⟩ (some "name"))

/-- The compiled `people` root of the value-from scenario. -/
def dtPeopleValueFrom : DocumentTransformer :=
  ⟨"people", .mk "people" "people" true false false true [] .vnone
    (.element [("person", personValueFrom)])⟩

/-- The value-from schema of the scenario, in the full envelope form:
`<people><person name="Philip" xsbe:value-from="name"/></people>`. -/
def schemaPeopleValueFrom : XmlElement :=
  .mk SCHEMA_NODE_NAME [] none
    [.mk ROOT_NODE_NAME [] none
      [.mk "people" [] none
        [.mk "person" [("name", "Philip"), (ATTRIBUTE_VALUE_FROM, "name")] none []]]]

/-- An input document with two `person` children, both resolving to the
`result_name` `person` through `value-from`. -/
def docTwoPersons : XmlElement :=
  .mk "people" [] none
    [.mk "person" [("name", "Alan")] none [], .mk "person" [("name", "Bob")] none []]

/-- Witness for C8: in the value-from scenario, the second `person` child
hits the duplicate check (via the theorem), and the whole decode of the
two-person document fails `DuplicateElement("person", "person")`. -/
theorem duplicate_result_name_witness :
    alookup "person" [("person", personValueFrom)] = some personValueFrom ∧
    personValueFrom.is_repeating = false ∧
    personValueFrom.flatten = false ∧
    dictContains [("person", Value.vstr "Alan")] personValueFrom.result_name = true ∧
    parseChildrenGo [("person", personValueFrom)] true [("person", Value.vstr "Alan")]
      [.mk "person" [("name", "Bob")] none []] =
      .error (.duplicateElement "person" (some "person")) ∧
    createTransformer schemaPeopleValueFrom true = .ok dtPeopleValueFrom ∧
    dtPeopleValueFrom.transform_from_xml docTwoPersons =
      .error (.duplicateElement "person" (some "person")) := by
  refine ⟨rfl, rfl, rfl, rfl, ?_, rfl, rfl⟩
  exact duplicate_result_name_fails [("person", personValueFrom)] true
    [("person", Value.vstr "Alan")] (.mk "person" [("name", "Bob")] none []) []
    personValueFrom rfl rfl rfl rfl

/-- C9.  After the child loop, `_set_defaults` walks the declared child
transformers: an absent `result_name` installs the default when the child
is optional (and the default is non-null; a null default leaves the key
absent), or fails `MissingElement` when mandatory; a present mandatory
repeating child whose collected list is empty also fails
`MissingElement`. -/
theorem defaults_installed_and_missing_fails
    (result : List (String × Value)) (name : String) (tr : NodeTransformer)
    (rest : List (String × NodeTransformer)) :
    (dictGet? result tr.result_name = none → tr.is_optional = true →
      tr.default_value.isNone = false →
      setDefaultsGo result ((name, tr) :: rest) =
        setDefaultsGo (dictSet result tr.result_name tr.default_value) rest) ∧
    (dictGet? result tr.result_name = none → tr.is_optional = true →
      tr.default_value.isNone = true →
      setDefaultsGo result ((name, tr) :: rest) = setDefaultsGo result rest) ∧
    (dictGet? result tr.result_name = none → tr.is_optional = false →
      setDefaultsGo result ((name, tr) :: rest) = .error (.missingElement name)) ∧
    (dictGet? result tr.result_name = some (.vlist []) → tr.is_repeating = true →
      tr.is_optional = false →
      setDefaultsGo result ((name, tr) :: rest) = .error (.missingElement name)) := by
  refine ⟨?_, ?_, ?_, ?_⟩
  · intro habs hopt hdef
    simp only [setDefaultsGo, habs, hopt, hdef, Bool.not_false, if_true]
  · intro habs hopt hdef
    simp only [setDefaultsGo, habs, hopt, hdef, Bool.not_true, Bool.false_eq_true, if_false,
      if_true]
  · intro habs hopt
    simp only [setDefaultsGo, habs, hopt, Bool.false_eq_true, if_false]
  · intro hpres hrep hopt
    simp only [setDefaultsGo, hpres, hrep, hopt, Bool.not_false, Bool.and_true, Bool.true_and,
      pyTruthy, List.isEmpty_nil, if_true, Bool.not_not, if_pos]

/-- An optional text-node child with decoded default `7`, for the C9
witness. -/
def optionalKidWithDefault : NodeTransformer :=
  .mk "kid" "kid" true false false false [] (.vint 7)
    (.textNode ⟨.int, none, .vnone⟩ none)

/-- A mandatory child, for the C9 witness. -/
def mandatoryKid : NodeTransformer :=
  .mk "kid" "kid" false false false false [] .vnone
    (.textNode ⟨.int, none, .vnone⟩ none)

/-- A mandatory repeating child, for the C9 witness. -/
def mandatoryRepeatingKid : NodeTransformer :=
  .mk "kid" "kid" false true false false [] .vnone
    (.textNode ⟨.int, none, .vnone⟩ none)

/-- Witness for C9: an absent optional child installs its default `7`; an
absent mandatory child fails `MissingElement`; a mandatory repeating
child with an empty collected list fails `MissingElement`. -/
theorem defaults_installed_witness :
    setDefaultsGo [] [("kid", optionalKidWithDefault)] = .ok [("kid", .vint 7)] ∧
    setDefaultsGo [] [("kid", mandatoryKid)] = .error (.missingElement "kid") ∧
    setDefaultsGo [("kid", .vlist [])] [("kid", mandatoryRepeatingKid)] =
      .error (.missingElement "kid") := by
  refine ⟨?_, ?_, ?_⟩
  · rw [(defaults_installed_and_missing_fails [] "kid" optionalKidWithDefault []).1
      rfl rfl rfl]
    rfl
  · exact (defaults_installed_and_missing_fails [] "kid" mandatoryKid []).2.2.1 rfl rfl
  · exact (defaults_installed_and_missing_fails [("kid", .vlist [])] "kid"
      mandatoryRepeatingKid []).2.2.2 rfl rfl rfl

/-- Lite schema `<value>1e5</value>`, whose example literal passes the
numeric probe (Python `float("1e5")` succeeds) without being a base-10
int literal. -/
def schemaLeaf1e5 : XmlElement := .mk "value" [] (some "1e5") []

/-- The transformer compiled from `schemaLeaf1e5`: the leaf gets the
*int* coder. -/
def dtLeaf1e5 : DocumentTransformer :=
  ⟨"value", .mk "value" "value" true false false false [] .vnone
    (.textNode ⟨.int, none, .vnone⟩ none)⟩

/-- C10.  `1e5` is accepted by `float()` and contains no `.`, so type
inference returns the *integer* coder for it — and the compiled leaf's
decode then raises `ValueError` even on the very literal the schema was
compiled from. -/
theorem numeric_probe_admits_non_int_literal :
    pyFloatAccepts "1e5" = true ∧
    containsDot "1e5" = false ∧
    pyIntOfString "1e5" = none ∧
    identifyTextType "1e5" none = .ok ⟨.int, none, .vnone⟩ ∧
    createTransformer schemaLeaf1e5 false = .ok dtLeaf1e5 ∧
    dtLeaf1e5.transform_from_xml schemaLeaf1e5 =
      .error (.valueError "invalid literal for int() with base 10: '1e5'") := by
  exact ⟨rfl, rfl, rfl, rfl, rfl, rfl⟩
